import Mathlib

/- Verification development for the patch/depatch pipeline of
   ecbm6040/patching/patchloader.py (3D super-resolution project).

   Shallow embedding conventions:
   * a torch 4D tensor (batch, z, x, y) is a `Tensor4`: explicit dimensions, a
     dtype tag, and a total valuation function into ℚ (values outside the
     declared dimensions are irrelevant to every theorem below);
   * a flattened patch tensor (n, cube, cube, cube) is a `PatchTensor`;
   * Python `int()` truncation, slice indexing `a[d:-d]` and list slicing
     `l[:k]` are modelled by `pyInt`, `pyIdx`/`pySliceLen` and `pyTake`;
   * `np.random.shuffle` is modelled by an arbitrary function
     `shuffle : List ℕ → List ℕ`; theorems that depend on it assume it
     permutes its input;
   * fallible steps (torch `view` size inference, zero division, index
     errors) are modelled with `Except`. -/

namespace SRPatch

/-- Torch dtypes that occur in the source file. -/
inductive DType where
  | int16 : DType
  | float32 : DType
deriving DecidableEq

/-- A 4D torch tensor (batch, z, x, y): dtype tag, dimensions, valuation. -/
structure Tensor4 where
  dtype : DType
  batch : ℕ
  dz : ℕ
  dx : ℕ
  dy : ℕ
  val : ℕ → ℕ → ℕ → ℕ → ℚ

/-- A flattened patch tensor (n, cube, cube, cube): `val q a b c` is the value
of patch `q` at offset (a, b, c). -/
structure PatchTensor where
  dtype : DType
  n : ℕ
  cube : ℕ
  val : ℕ → ℕ → ℕ → ℕ → ℚ

/-- Python `int(q)` on a rational: truncation toward zero. -/
def pyInt (q : ℚ) : ℤ := if 0 ≤ q then ⌊q⌋ else -⌊-q⌋

/-- Effective position of a Python index `i` in a sequence of length `len`
(negative indices count from the end, results are clamped into [0, len]). -/
def pyIdx (len : ℕ) (i : ℤ) : ℕ := if 0 ≤ i then min i.toNat len else len - (-i).toNat

/-- Length of the Python slice `a[lo:hi]` of a sequence of length `len`. -/
def pySliceLen (len : ℕ) (lo hi : ℤ) : ℕ := pyIdx len hi - pyIdx len lo

/-- Python list slicing `l[:k]` with an integer bound `k` (negative `k` drops
elements from the end). -/
def pyTake {α : Type} (l : List α) (k : ℤ) : List α :=
  if 0 ≤ k then l.take k.toNat else l.take ((l.length : ℤ) + k).toNat

/-- patchloader.py line 22: the value transform `image.float() / 4095.0`
applied to one scalar. -/
def normVal (v : ℚ) : ℚ := v / 4095

/-- Number of sliding windows `torch.unfold(dim, size, step)` produces along an
axis of length `len` (requires `size ≤ len` and `0 < step`, which holds at
every use below): `(len - size) / step + 1`. -/
def numWindows (len size step : ℕ) : ℕ := (len - size) / step + 1

/-- patchloader.py lines 77-84 (evaluation branch): allocate
`torch.zeros` of the padded shape — float32, the torch default dtype — and
copy the volume into the interior.  Padding is the fixed `[20, 17, 17]`. -/
def padVolume (t : Tensor4) : Tensor4 :=
  let padding : List ℕ := [20, 17, 17]
  let p0 := padding.getD 0 0
  let p1 := padding.getD 1 0
  let p2 := padding.getD 2 0
  { dtype := DType.float32
    batch := t.batch
    dz := t.dz + 2 * p0
    dx := t.dx + 2 * p1
    dy := t.dy + 2 * p2
    val := fun p z x y =>
      if p0 ≤ z ∧ z < t.dz + p0 ∧ p1 ≤ x ∧ x < t.dx + p1 ∧ p2 ≤ y ∧ y < t.dy + p2
      then t.val p (z - p0) (x - p1) (y - p2) else 0 }

/-- patchloader.py lines 57-60 / 85-88: the triple `unfold` along z, x, y with
window `cube` and step `stride`, followed by `contiguous().view(-1, c, c, c)`.
Patch `q` decomposes in C (raster) order as `((p * nz + i) * nx + j) * ny + k`,
and its (a, b, c) entry reads the source at the window offset. -/
def windowPatches (t : Tensor4) (cube stride : ℕ) : PatchTensor :=
  let nz := numWindows t.dz cube stride
  let nx := numWindows t.dx cube stride
  let ny := numWindows t.dy cube stride
  { dtype := t.dtype
    n := t.batch * nz * nx * ny
    cube := cube
    val := fun q a b c =>
      let k := q % ny
      let j := q / ny % nx
      let i := q / (ny * nx) % nz
      let p := q / (ny * nx * nz)
      t.val p (i * stride + a) (j * stride + b) (k * stride + c) }

/-- patchloader.py lines 56-60 (training branch): stride equals the cube size,
no padding, dtype of the stored patches is the input dtype. -/
def trainPatches (t : Tensor4) (cube : ℕ) : PatchTensor :=
  windowPatches t cube cube

/-- patchloader.py lines 76-88 (evaluation branch): stride
`cube_size - 2 * margin`, tiling applied to the zero-padded volume. -/
def evalPatches (t : Tensor4) (cube margin : ℕ) : PatchTensor :=
  windowPatches (padVolume t) cube (cube - 2 * margin)

/-- patchloader.py lines 16-24 (`Patch.transform`) lifted to a whole patch
tensor: what the data loader hands out for each stored patch — the stored
value divided by 4095.0 (the added singleton channel axis is flattened away
again by `depatching`'s first `view`, so it is not represented here). -/
def transformPatches (pt : PatchTensor) : PatchTensor :=
  { pt with dtype := DType.float32, val := fun q a b c => normVal (pt.val q a b c) }

/-- patchloader.py lines 62-68: usage-based random index selection.
`patch_take = int(usage * num_patches)`; the candidate indices are
`list(set(range(num_patches)) - set(idx_mine))`; they are shuffled in place
(modelled by `shuffle`) and the prefix `indices[:patch_take]` is kept. -/
def selectTrainIndices (num_patches : ℕ) (usage : ℚ) (idx_mine : List ℕ)
    (shuffle : List ℕ → List ℕ) : List ℕ :=
  let patch_take := pyInt (usage * num_patches)
  let indices_undemined := List.range num_patches
  let indices := indices_undemined.filter (fun i => decide (i ∉ idx_mine))
  let shuffled := shuffle indices
  pyTake shuffled patch_take

/-- patchloader.py lines 36-94 (`patching`).  The loaded exclusion file
content is the `idxMineLoaded` argument (lines 49-51); line 53 then overrides
it with the empty list.  In training mode the `unfold` calls fail if the cube
does not fit the volume; otherwise the result is the stored patch pair plus
the list of sampled indices the loader will traverse (sequential sampler over
the shuffled selection in training mode, plain sequential order in evaluation
mode). -/
def patching (lr_data hr_data : Tensor4) (cube_size : ℕ) (usage : ℚ)
    (margin : ℕ) (is_training : Bool) (idxMineLoaded : List ℕ)
    (shuffle : List ℕ → List ℕ) :
    Except String (PatchTensor × PatchTensor × List ℕ) :=
  let idx_mine := idxMineLoaded
  let idx_mine : List ℕ := []   -- line 53: "here we are not setting mines. We want all patches."
  if is_training then
    if cube_size = 0 ∨ lr_data.dz < cube_size ∨ lr_data.dx < cube_size ∨
        lr_data.dy < cube_size then
      Except.error "unfold: lr window size does not fit"   -- line 57
    else if hr_data.dz < cube_size ∨ hr_data.dx < cube_size ∨
        hr_data.dy < cube_size then
      Except.error "unfold: hr window size does not fit"   -- line 58
    else
      let lr_patches := trainPatches lr_data cube_size
      let hr_patches := trainPatches hr_data cube_size
      let num_patches := lr_patches.n
      let patch_indices := selectTrainIndices num_patches usage idx_mine shuffle
      Except.ok (lr_patches, hr_patches, patch_indices)
  else
    -- lines 85-86: the unfolds on the padded volumes raise when the window
    -- does not fit a padded dimension or the stride cube_size - 2*margin is
    -- not positive.
    if cube_size = 0 ∨ cube_size ≤ 2 * margin ∨
        (padVolume lr_data).dz < cube_size ∨ (padVolume lr_data).dx < cube_size ∨
        (padVolume lr_data).dy < cube_size then
      Except.error "unfold: lr window size or step does not fit"   -- line 85
    else if (padVolume hr_data).dz < cube_size ∨ (padVolume hr_data).dx < cube_size ∨
        (padVolume hr_data).dy < cube_size then
      Except.error "unfold: hr window size does not fit"   -- line 86
    else
      let lr_patches := evalPatches lr_data cube_size margin
      let hr_patches := evalPatches hr_data cube_size margin
      Except.ok (lr_patches, hr_patches, List.range lr_patches.n)

/-- patchloader.py lines 96-140 (`depatching`).  Line 106 overrides the
`image_size` argument with the fixed `[192, 320, 320]`.  Error cases model the
torch failure points: `view` with an incompatible inferred dimension,
`torch.zeros` with a negative dimension, division by a zero cropped size, and
the loop indexing past the inferred fourth dimension.  The returned tensor is
the merged volume (blocks written at cropped-cube granularity, unwritten
region left at zero) cropped by `padding - margin` on each face. -/
def depatching (patches : PatchTensor) (batch_size margin : ℕ)
    (image_size : List ℕ) : Except String Tensor4 :=
  let image_size : List ℕ := [192, 320, 320]
  let padding : List ℕ := [20, 17, 17]
  let cube := patches.cube
  if batch_size = 0 ∨ patches.n % batch_size ≠ 0 then
    Except.error "view: batch split"
  else
    let npb := patches.n / batch_size
    let cropped := pySliceLen cube (margin : ℤ) (-(margin : ℤ))
    let d0 : ℤ := (padding.getD 0 0 : ℤ) - margin
    let d1 : ℤ := (padding.getD 1 0 : ℤ) - margin
    let d2 : ℤ := (padding.getD 2 0 : ℤ) - margin
    let m0 : ℤ := (image_size.getD 0 0 : ℤ) + 2 * d0
    let m1 : ℤ := (image_size.getD 1 0 : ℤ) + 2 * d1
    let m2 : ℤ := (image_size.getD 2 0 : ℤ) + 2 * d2
    if m0 < 0 ∨ m1 < 0 ∨ m2 < 0 then
      Except.error "zeros: negative dimension"
    else
      let mz := m0.toNat
      let mx := m1.toNat
      let my := m2.toNat
      if cropped = 0 then
        Except.error "division by zero"
      else
        let nz := mz / cropped
        let nx := mx / cropped
        let ny := my / cropped
        if nz = 0 ∨ npb % nz ≠ 0 then
          Except.error "view: nz split"
        else
          let q2 := npb / nz
          if nx = 0 ∨ q2 % nx ≠ 0 then
            Except.error "view: nx split"
          else
            let nyv := q2 / nx
            if nyv < ny then
              Except.error "index out of range"
            else
              Except.ok
                { dtype := DType.float32
                  batch := batch_size
                  dz := pySliceLen mz d0 (-d0)
                  dx := pySliceLen mx d1 (-d1)
                  dy := pySliceLen my d2 (-d2)
                  val := fun p z x y =>
                    let z' := z + pyIdx mz d0
                    let x' := x + pyIdx mx d1
                    let y' := y + pyIdx my d2
                    if z' / cropped < nz ∧ x' / cropped < nx ∧ y' / cropped < ny then
                      patches.val
                        (p * npb + ((z' / cropped * nx + x' / cropped) * nyv + y' / cropped))
                        (pyIdx cube (margin : ℤ) + z' % cropped)
                        (pyIdx cube (margin : ℤ) + x' % cropped)
                        (pyIdx cube (margin : ℤ) + y' % cropped)
                    else 0 }

/-- Projection to `some` payload of a successful call, `none` on error. -/
def okValue {ε α : Type} : Except ε α → Option α
  | Except.ok a => some a
  | Except.error _ => none

/-- The canonical fixed-size volume of the project: batch 1, (192, 320, 320),
int16, every voxel equal to 1 (a concrete, everywhere-nonzero witness). -/
def origVol : Tensor4 :=
  { dtype := DType.int16, batch := 1, dz := 192, dx := 320, dy := 320,
    val := fun _ _ _ _ => 1 }

/-- The evaluation-mode patches of the canonical volume with the default
cube_size 64 and margin 3, as handed out by the loader (normalized). -/
def canonicalPatches : PatchTensor := transformPatches (evalPatches origVol 64 3)

/-- A small volume for exercising the training branch: batch 1, (4, 4, 4). -/
def vol4 : Tensor4 :=
  { dtype := DType.int16, batch := 1, dz := 4, dx := 4, dy := 4,
    val := fun _ _ _ _ => 0 }

/- The `Patch` Dataset class (patchloader.py lines 11-33) modelled over nested
lists, so that the added leading channel axis of `transform` is visible in the
types: a stored cube is a `T3i` (integer values), a produced cube is a list of
`T3q` whose length is the channel dimension. -/

/-- A 3D cube of integer samples (as stored in the patch container). -/
abbrev T3i := List (List (List ℤ))

/-- A 3D cube of rational samples (as produced by `transform`). -/
abbrev T3q := List (List (List ℚ))

/-- `t` is an `n × n × n` cube. -/
abbrev IsCube {α : Type} (n : ℕ) (t : List (List (List α))) : Prop :=
  t.length = n ∧ ∀ p ∈ t, p.length = n ∧ ∀ r ∈ p, r.length = n

/-- All scalar values of a 3D cube. -/
def cubeVals {α : Type} (t : List (List (List α))) : List α :=
  t.flatMap fun pl => pl.flatMap fun row => row

/-- `Patch.__init__` (lines 12-14): the container stores the low-res and
high-res patch arrays. -/
structure PatchDS where
  lr_data : List T3i
  hr_data : List T3i

namespace Patch

/-- `Patch.transform` (lines 16-24): `image.float() / 4095.0` followed by
`torch.unsqueeze(·, 0)` — every value divided by 4095 and a leading singleton
channel axis added. -/
def transform (image : T3i) : List T3q :=
  [image.map fun pl => pl.map fun row => row.map fun v => normVal ((v : ℤ) : ℚ)]

/-- `Patch.__getitem__` (lines 25-31): read `lr_data[idx]` and `hr_data[idx]`,
transform each, return the (lr, hr) pair; out-of-range access is `none`. -/
def getitem (d : PatchDS) (idx : ℕ) : Option (List T3q × List T3q) :=
  match d.lr_data[idx]?, d.hr_data[idx]? with
  | some image_lr, some image_hr => some (transform image_lr, transform image_hr)
  | _, _ => none

/-- `Patch.__len__` (lines 32-33): the first dimension of `lr_data`. -/
def len (d : PatchDS) : ℕ := d.lr_data.length

end Patch

/-- A one-element dataset whose single cube is the 1×1×1 cube holding the
maximal raw value 4095. -/
def demoDS : PatchDS := { lr_data := [[[[4095]]]], hr_data := [[[[4095]]]] }

/- Helper lemmas. -/

/-- Mapping a function over every scalar of a cube maps it over `cubeVals`. -/
theorem cubeVals_map {α β : Type} (f : α → β) (t : List (List (List α))) :
    cubeVals (t.map fun pl => pl.map fun row => row.map f) = (cubeVals t).map f := by
  simp [cubeVals, List.map_flatMap, List.flatMap_map]

/-- `transform` preserves the cube shape of the (single) channel it emits. -/
theorem transform_isCube {n : ℕ} {t : T3i} (h : IsCube n t) :
    ∀ u ∈ Patch.transform t, IsCube n u := by
  intro u hu
  rw [Patch.transform, List.mem_singleton] at hu
  subst hu
  obtain ⟨h1, h2⟩ := h
  refine ⟨by simpa using h1, ?_⟩
  intro p hp
  rw [List.mem_map] at hp
  obtain ⟨p0, hp0, rfl⟩ := hp
  obtain ⟨hl, hr⟩ := h2 p0 hp0
  refine ⟨by simpa using hl, ?_⟩
  intro r hrm
  rw [List.mem_map] at hrm
  obtain ⟨r0, hr0, rfl⟩ := hrm
  simpa using hr r0 hr0

/-- If the raw values lie in [0, 4095], the transformed values lie in [0, 1]. -/
theorem transform_range {t : T3i} (hv : ∀ v ∈ cubeVals t, 0 ≤ v ∧ v ≤ 4095) :
    ∀ u ∈ Patch.transform t, ∀ q ∈ cubeVals u, 0 ≤ q ∧ q ≤ 1 := by
  intro u hu q hq
  rw [Patch.transform, List.mem_singleton] at hu
  subst hu
  rw [cubeVals_map, List.mem_map] at hq
  obtain ⟨v, hvmem, rfl⟩ := hq
  obtain ⟨hv0, hv1⟩ := hv v hvmem
  unfold normVal
  constructor
  · exact div_nonneg (by exact_mod_cast hv0) (by norm_num)
  · rw [div_le_one (by norm_num)]
    exact_mod_cast hv1

/-- Python `l[:k]` always yields a sublist of `l`. -/
theorem pyTake_sublist {α : Type} (l : List α) (k : ℤ) : List.Sublist (pyTake l k) l := by
  unfold pyTake
  split
  · exact List.take_sublist _ _
  · exact List.take_sublist _ _

/-- C1: the claimed round-trip identity fails on the canonical
(1, 192, 320, 320) volume.  For the all-ones input volume, evaluation-mode
patching (cube 64, margin 3) followed by the identity transform on every
normalized patch and depatching returns the correctly normalized value
`normVal 1 = 1/4095` at depth 100, but returns `0 ≠ normVal 1` at depth 160:
every output depth slice from 157 on is zero because the fixed padding
[20, 17, 17] leaves the last 52 padded depth rows outside every sliding
window.  The depatch step itself indeed does not re-scale (the interior value
is exactly the normalized one). -/
theorem round_trip_fails :
    origVol.val 0 160 0 0 = 1 ∧
    normVal 1 ≠ 0 ∧
    (okValue (depatching canonicalPatches 1 3 [192, 320, 320])).map
      (fun v => (v.val 0 100 0 0, v.val 0 160 0 0)) = some (normVal 1, 0) :=
  ⟨rfl, by norm_num [normVal], by rfl⟩

/-- C2: counterexample to the claimed evaluation-mode tiling counts.  On the
canonical volume the padded depth 232 admits only 3 windows of size 64 at
stride 58 (not the claimed 4), and the total patch count is 108, not 144. -/
theorem eval_tiling_cex :
    (evalPatches origVol 64 3).n ≠ 144 ∧
    numWindows (padVolume origVol).dz 64 58 ≠ 4 := by decide

/-- C2 amended: the (1, 192, 320, 320) volume is zero-padded to
(1, 232, 354, 354); the size-64 / stride-58 sliding window produces 3 depth
windows and 6 windows along each of height and width — 108 patches per
subject.  The windows exactly cover the padded height and width axes (last
window ends at 354) but not the depth axis: the last depth window ends at
180, leaving rows 180..231 of the padded volume uncovered. -/
theorem eval_tiling_amended :
    (padVolume origVol).dz = 232 ∧ (padVolume origVol).dx = 354 ∧
    (padVolume origVol).dy = 354 ∧
    numWindows 232 64 58 = 3 ∧ numWindows 354 64 58 = 6 ∧
    (evalPatches origVol 64 3).n = 108 ∧
    (numWindows 232 64 58 - 1) * 58 + 64 = 180 ∧ 180 < 232 ∧
    (numWindows 354 64 58 - 1) * 58 + 64 = 354 := by decide

/-- C4: counterexample.  Calling `patching` in training mode with the loaded
exclusion set `[0]` on a volume with a single patch nevertheless samples
index 0 — the file-designated exclusion is not honoured, because line 53
overrides the loaded set with the empty list. -/
theorem exclusion_discarded_cex :
    (okValue (patching vol4 vol4 4 1 3 true [0] id)).map (fun r => r.2.2)
      = some [0] := by
  norm_num [patching, vol4, trainPatches, windowPatches, numWindows,
    selectTrainIndices, pyInt, pyTake, List.range_succ, okValue]

/-- C4 amended: the exclusion set loaded from the auxiliary metadata file is
discarded before use — `patching` resets it to the empty list, so its result
is identical to the result with an empty exclusion set, for every argument
combination; no file-designated index is ever excluded from sampling. -/
theorem exclusion_override (lr hr : Tensor4) (cube : ℕ) (u : ℚ) (m : ℕ)
    (tr : Bool) (loaded : List ℕ) (shuffle : List ℕ → List ℕ) :
    patching lr hr cube u m tr loaded shuffle
      = patching lr hr cube u m tr [] shuffle := rfl

/-- C6: counterexample.  In evaluation mode the cube data stored in the patch
container is not kept in integer form: the padded volume is allocated by
`torch.zeros`, whose default dtype is float32, so the stored evaluation
patches are float32 even though the input volume is int16 (the training-mode
store does keep the input dtype). -/
theorem stored_dtype_cex :
    origVol.dtype = DType.int16 ∧
    (trainPatches origVol 64).dtype = DType.int16 ∧
    (evalPatches origVol 64 3).dtype = DType.float32 ∧
    DType.float32 ≠ DType.int16 := by decide

/-- C6 amended: in training mode the stored cube data keeps the input integer
dtype, but in evaluation mode the zero-padding step already stores the data
in a float32 tensor (the int-to-float cast happens at padding time, not at
patch access); in both modes the division by 4095.0 itself is applied exactly
at the moment a patch is produced — the stored value is the raw value and the
produced value is `normVal` of it. -/
theorem lazy_normalization_amended (t : Tensor4) (cube margin q a b c : ℕ) :
    (trainPatches t cube).dtype = t.dtype ∧
    (evalPatches t cube margin).dtype = DType.float32 ∧
    (transformPatches (trainPatches t cube)).val q a b c
      = normVal ((trainPatches t cube).val q a b c) ∧
    (transformPatches (evalPatches t cube margin)).val q a b c
      = normVal ((evalPatches t cube margin).val q a b c) :=
  ⟨rfl, rfl, rfl, rfl⟩

/-- C7: counterexample.  On the canonical patches the merged depth 226 is not
divisible by the cropped cube size 58, yet `depatching` does not fail: it
silently truncates the grid count and returns a volume. -/
theorem depatch_no_divisibility_check_cex :
    (226 : ℕ) % 58 ≠ 0 ∧
    (okValue (depatching canonicalPatches 1 3 [192, 320, 320])).isSome = true := by
  decide

/-- C7 amended: the grid counts are computed with truncating integer division
(`int(226 / 58) = 3`, remainder 52 discarded); a non-integer division is not
a fatal shape error — the call succeeds, returns a full-size
(192, 320, 320) volume, and the region beyond the truncated grid (for
example output depth 180) is silently left at zero.  A failure can only come
from the subsequent reshape arithmetic on the patch count, not from the
merged-size division. -/
theorem depatch_silent_truncation :
    (226 : ℕ) / 58 = 3 ∧ (226 : ℕ) % 58 = 52 ∧
    (okValue (depatching canonicalPatches 1 3 [192, 320, 320])).map
      (fun v => (v.dz, v.dx, v.dy, v.val 0 180 0 0))
      = some (192, 320, 320, 0) :=
  ⟨rfl, rfl, by rfl⟩

/-- C9: `depatching` ignores its `image_size` argument entirely — line 106
overrides it with the fixed [192, 320, 320] — so for every patches tensor,
batch size and margin, any two argument values give the same result. -/
theorem depatch_ignores_image_size (p : PatchTensor) (b m : ℕ)
    (s1 s2 : List ℕ) : depatching p b m s1 = depatching p b m s2 := rfl

/-- C3: for every index below the container size, `__getitem__` returns the
pair of transformed cubes: each is the stored integer cube converted to
rationals, divided by 4095, and wrapped in a leading singleton channel axis
(list length 1, cube shape preserved); for stored values in [0, 4095] all
produced values lie in [0, 1], with 0 mapping to 0 and 4095 mapping to 1.
The model is a pure function of the container, so the access has no side
effects by construction. -/
theorem patch_get_spec (d : PatchDS) (i n : ℕ)
    (hi : i < Patch.len d) (hh : i < d.hr_data.length)
    (hclr : ∀ t ∈ d.lr_data, IsCube n t ∧ ∀ v ∈ cubeVals t, 0 ≤ v ∧ v ≤ 4095)
    (hchr : ∀ t ∈ d.hr_data, IsCube n t ∧ ∀ v ∈ cubeVals t, 0 ≤ v ∧ v ≤ 4095) :
    ∃ lo ho, d.lr_data[i]? = some lo ∧ d.hr_data[i]? = some ho ∧
      Patch.getitem d i = some (Patch.transform lo, Patch.transform ho) ∧
      (Patch.transform lo).length = 1 ∧ (Patch.transform ho).length = 1 ∧
      (∀ u ∈ Patch.transform lo, IsCube n u) ∧
      (∀ u ∈ Patch.transform ho, IsCube n u) ∧
      (∀ u ∈ Patch.transform lo, ∀ q ∈ cubeVals u, 0 ≤ q ∧ q ≤ 1) ∧
      (∀ u ∈ Patch.transform ho, ∀ q ∈ cubeVals u, 0 ≤ q ∧ q ≤ 1) ∧
      normVal 0 = 0 ∧ normVal 4095 = 1 := by
  have hil : i < d.lr_data.length := hi
  have e1 : d.lr_data[i]? = some d.lr_data[i] := List.getElem?_eq_getElem hil
  have e2 : d.hr_data[i]? = some d.hr_data[i] := List.getElem?_eq_getElem hh
  obtain ⟨hcl, hvl⟩ := hclr _ (List.getElem_mem hil)
  obtain ⟨hch, hvh⟩ := hchr _ (List.getElem_mem hh)
  refine ⟨d.lr_data[i], d.hr_data[i], e1, e2, ?_, rfl, rfl,
    transform_isCube hcl, transform_isCube hch,
    transform_range hvl, transform_range hvh, ?_, ?_⟩
  · unfold Patch.getitem
    rw [e1, e2]
  · unfold normVal
    norm_num
  · unfold normVal
    norm_num

/-- C3 witness: `patch_get_spec` instantiated on the one-element dataset
whose single 1×1×1 cube holds the raw value 4095. -/
theorem patch_get_spec_witness :
    (0 < Patch.len demoDS ∧ 0 < demoDS.hr_data.length) ∧
    (∃ lo ho, demoDS.lr_data[0]? = some lo ∧ demoDS.hr_data[0]? = some ho ∧
      Patch.getitem demoDS 0 = some (Patch.transform lo, Patch.transform ho) ∧
      (Patch.transform lo).length = 1 ∧ (Patch.transform ho).length = 1 ∧
      (∀ u ∈ Patch.transform lo, IsCube 1 u) ∧
      (∀ u ∈ Patch.transform ho, IsCube 1 u) ∧
      (∀ u ∈ Patch.transform lo, ∀ q ∈ cubeVals u, 0 ≤ q ∧ q ≤ 1) ∧
      (∀ u ∈ Patch.transform ho, ∀ q ∈ cubeVals u, 0 ≤ q ∧ q ≤ 1) ∧
      normVal 0 = 0 ∧ normVal 4095 = 1) :=
  ⟨⟨by decide, by decide⟩,
   patch_get_spec demoDS 0 1 (by decide) (by decide) (by decide) (by decide)⟩

/-- C5: in training mode with usage u in (0, 1], the number of sampled
indices equals `floor(u * num_patches)` (stated for the empty exclusion set
the code actually uses), and every sampled index lies in
[0, num_patches) minus the exclusion set handed to the selection (stated for
an arbitrary exclusion set, the shuffle being an arbitrary permutation). -/
theorem usage_fraction (n : ℕ) (u : ℚ) (mine : List ℕ)
    (shuffle : List ℕ → List ℕ)
    (hperm : ∀ l : List ℕ, List.Perm (shuffle l) l) (h0 : 0 < u) (h1 : u ≤ 1) :
    (selectTrainIndices n u [] shuffle).length = (⌊u * (n : ℚ)⌋).toNat ∧
    ∀ i ∈ selectTrainIndices n u mine shuffle, i < n ∧ i ∉ mine := by
  have hnn : (0 : ℚ) ≤ u * (n : ℚ) := mul_nonneg h0.le (Nat.cast_nonneg n)
  have hflo : (0 : ℤ) ≤ ⌊u * (n : ℚ)⌋ := Int.floor_nonneg.mpr hnn
  constructor
  · unfold selectTrainIndices
    rw [pyInt, if_pos hnn, pyTake, if_pos hflo]
    rw [List.length_take]
    have hfe : (List.range n).filter (fun i => decide (i ∉ ([] : List ℕ)))
        = List.range n := by simp
    rw [hfe, (hperm _).length_eq, List.length_range]
    refine min_eq_left ?_
    rw [Int.toNat_le]
    calc ⌊u * (n : ℚ)⌋ ≤ ⌊(n : ℚ)⌋ :=
          Int.floor_le_floor (mul_le_of_le_one_left (Nat.cast_nonneg n) h1)
      _ = (n : ℤ) := Int.floor_natCast n
  · intro i hi
    unfold selectTrainIndices at hi
    have hi2 : i ∈ shuffle ((List.range n).filter fun j => decide (j ∉ mine)) :=
      (pyTake_sublist _ _).subset hi
    have hi3 : i ∈ (List.range n).filter fun j => decide (j ∉ mine) :=
      (hperm _).subset hi2
    rw [List.mem_filter] at hi3
    obtain ⟨hr, hd⟩ := hi3
    exact ⟨List.mem_range.mp hr, by simpa using hd⟩

/-- C5 witness: `usage_fraction` at num_patches 4, usage 1/2, identity
shuffle — two indices are sampled, both below 4. -/
theorem usage_fraction_witness :
    (0 < (1 / 2 : ℚ) ∧ (1 / 2 : ℚ) ≤ 1) ∧
    ((selectTrainIndices 4 (1 / 2) [] id).length = (⌊(1 / 2 : ℚ) * ((4 : ℕ) : ℚ)⌋).toNat ∧
      ∀ i ∈ selectTrainIndices 4 (1 / 2) [] id, i < 4 ∧ i ∉ ([] : List ℕ)) :=
  ⟨⟨by norm_num, by norm_num⟩,
   usage_fraction 4 (1 / 2) [] id (fun l => List.Perm.refl l)
     (by norm_num) (by norm_num)⟩

/-- C8: counterexample.  usage = 2 is outside (0, 1], yet the training-mode
call does not fail: it succeeds and produces a non-empty patch stream (the
single patch index 0). -/
theorem usage_not_validated_cex :
    ¬ (0 < (2 : ℚ) ∧ (2 : ℚ) ≤ 1) ∧
    (okValue (patching vol4 vol4 4 2 3 true [] id)).map (fun r => r.2.2)
      = some [0] := by
  constructor
  · norm_num
  · norm_num [patching, vol4, trainPatches, windowPatches, numWindows,
      selectTrainIndices, pyInt, pyTake, List.range_succ, okValue]

/-- C8 amended: `patching` performs no validation of `usage` at all — in
training mode, whenever the cube fits both volumes (the `unfold`
preconditions of lines 57-58) the call succeeds for every usage value,
including values outside (0, 1], returning the stored patch pair and the
usage-scaled index selection; and for usage ≥ 1 that selection is the entire
shuffled candidate list (the prefix bound exceeds its length). -/
theorem usage_not_validated (lr hr : Tensor4) (cube : ℕ) (u : ℚ) (m : ℕ)
    (loaded : List ℕ) (shuffle : List ℕ → List ℕ)
    (h1 : cube ≠ 0) (h2 : cube ≤ lr.dz) (h3 : cube ≤ lr.dx) (h4 : cube ≤ lr.dy)
    (h5 : cube ≤ hr.dz) (h6 : cube ≤ hr.dx) (h7 : cube ≤ hr.dy) :
    patching lr hr cube u m true loaded shuffle
      = Except.ok (trainPatches lr cube, trainPatches hr cube,
          selectTrainIndices (trainPatches lr cube).n u [] shuffle) ∧
    ((∀ l : List ℕ, List.Perm (shuffle l) l) → 1 ≤ u → ∀ n mine,
      selectTrainIndices n u mine shuffle
        = shuffle ((List.range n).filter fun j => decide (j ∉ mine))) := by
  constructor
  · unfold patching
    rw [if_pos rfl, if_neg, if_neg]
    · simp only [not_or]
      exact ⟨not_lt.mpr h5, not_lt.mpr h6, not_lt.mpr h7⟩
    · simp only [not_or]
      exact ⟨h1, not_lt.mpr h2, not_lt.mpr h3, not_lt.mpr h4⟩
  · intro hperm hu n mine
    have hk : (0 : ℚ) ≤ u * (n : ℚ) :=
      mul_nonneg (le_trans zero_le_one hu) (Nat.cast_nonneg n)
    unfold selectTrainIndices
    rw [pyInt, if_pos hk, pyTake, if_pos (Int.floor_nonneg.mpr hk)]
    apply List.take_of_length_le
    rw [(hperm _).length_eq]
    have hcand : ((List.range n).filter fun j => decide (j ∉ mine)).length ≤ n :=
      le_trans (List.length_filter_le _ _) (le_of_eq (List.length_range n))
    refine le_trans hcand ?_
    have hmul : ((n : ℤ) : ℚ) ≤ u * (n : ℚ) := by
      push_cast
      exact le_mul_of_one_le_left (Nat.cast_nonneg n) hu
    have hfl : (n : ℤ) ≤ ⌊u * (n : ℚ)⌋ := Int.le_floor.mpr hmul
    have := Int.toNat_le_toNat hfl
    simpa using this

/-- C8 amended witness: `usage_not_validated` at the out-of-range usage 2 on
the (1, 4, 4, 4) volume with cube size 4. -/
theorem usage_not_validated_witness :
    ¬ (0 < (2 : ℚ) ∧ (2 : ℚ) ≤ 1) ∧
    (patching vol4 vol4 4 2 3 true [] id
      = Except.ok (trainPatches vol4 4, trainPatches vol4 4,
          selectTrainIndices (trainPatches vol4 4).n 2 [] id) ∧
     ((∀ l : List ℕ, List.Perm (id l) l) → 1 ≤ (2 : ℚ) → ∀ n mine,
       selectTrainIndices n 2 mine id
         = id ((List.range n).filter fun j => decide (j ∉ mine)))) :=
  ⟨by norm_num,
   usage_not_validated vol4 vol4 4 2 3 [] id (by decide) (by decide)
     (by decide) (by decide) (by decide) (by decide) (by decide)⟩

/-- C10: the sampled training indices of a single call are pairwise distinct
for every usage, exclusion set and shuffle that permutes its input: the
candidates are the duplicate-free filtered range, shuffling permutes them,
and a prefix of a duplicate-free list is duplicate-free. -/
theorem sampled_indices_nodup (n : ℕ) (u : ℚ) (mine : List ℕ)
    (shuffle : List ℕ → List ℕ)
    (hperm : ∀ l : List ℕ, List.Perm (shuffle l) l) :
    (selectTrainIndices n u mine shuffle).Nodup := by
  have h1 : ((List.range n).filter fun j => decide (j ∉ mine)).Nodup :=
    (List.nodup_range n).filter _
  have h2 : (shuffle ((List.range n).filter fun j => decide (j ∉ mine))).Nodup :=
    ((hperm _).nodup_iff).mpr h1
  unfold selectTrainIndices
  exact h2.sublist (pyTake_sublist _ _)

/-- C10 witness: `sampled_indices_nodup` at num_patches 3, usage 1, identity
shuffle. -/
theorem sampled_indices_nodup_witness :
    (∀ l : List ℕ, List.Perm (id l) l) ∧ (selectTrainIndices 3 1 [] id).Nodup :=
  ⟨fun l => List.Perm.refl l,
   sampled_indices_nodup 3 1 [] id (fun l => List.Perm.refl l)⟩

end SRPatch
